import Mathlib

/-!
Verification of the PLC lighting transmitter protocol engine
(src/api/src/lighting/lighting.py) against its natural-language
specification.

The wire protocol is pure ASCII, so serial lines and frames are modelled
as `String`.  Python runtime failures that the source can raise are made
explicit in the `PyErr` error type: `LightingException`/`HTTPException`
instances raised on purpose, and the `TypeError` / `NameError` /
`AssertionError` / `ValueError` / `IndexError` failures that Python raises
for the arity, unbound-name, assertion, parse and indexing slips present in
the source.  Each endpoint body is embedded as a pure function over a
response script (the list of lines the serial device would produce, in
order; an empty string stands for a read timeout), returning the frames it
wrote and its outcome.
-/

set_option linter.unusedVariables false

namespace Lighting

/-- Errors a lighting.py call can surface: deliberate `LightingException` /
`HTTPException` raises, plus the Python runtime errors reachable in the
source (`TypeError` from calling the two-parameter `__decode__` with three
arguments, `NameError` from the unbound name `raw` inside `__decode__`,
`AssertionError` from `assert isinstance(...)`, `ValueError` from `int()`,
`IndexError` from string indexing). -/
inductive PyErr where
  | lightingException (msg : String)
  | httpException (status : Nat) (detail : String)
  | typeError
  | nameError
  | assertionError
  | valueError
  | indexError
  deriving Repr, DecidableEq

/-- Python bytes.rstrip() trailing-whitespace set: space, tab, newline,
carriage return, vertical tab, form feed. -/
def pyIsSpace (c : Char) : Bool :=
  c = ' ' || c = '\t' || c = '\n' || c = '\r' || c = '\x0b' || c = '\x0c'

/-- Python `bytes.rstrip()`: drop trailing whitespace bytes. -/
def pyRstrip (s : String) : String :=
  ⟨(s.data.reverse.dropWhile pyIsSpace).reverse⟩

/-- Split a character list on every occurrence of `sep`, keeping empty
fragments — the semantics of Python `bytes.split(sep)` for a one-byte
separator.  (`String.splitOn` agrees but is defined by well-founded
recursion on byte positions, which the kernel cannot evaluate; this
structural version computes.) -/
def splitChar (sep : Char) : List Char → List (List Char)
  | [] => [[]]
  | c :: rest =>
      if c = sep then [] :: splitChar sep rest
      else
        match splitChar sep rest with
        | [] => [[c]]
        | h :: t => (c :: h) :: t

/-- Python `s.split(sep)` for a single-character separator. -/
def pySplit (s : String) (sep : Char) : List String :=
  (splitChar sep s.data).map fun l => ⟨l⟩

/-- Python `s.startswith(p)` (computable structural version of
`String.startsWith`). -/
def pyStartsWith (s p : String) : Bool :=
  p.data.isPrefixOf s.data

/-- Python `str(n).zfill(width)`: left-pad with '0' to `width`, keeping a
leading sign in front of the padding. -/
def pyZfill (width : Nat) (s : String) : String :=
  if width ≤ s.length then s
  else
    let (sign, body) :=
      if pyStartsWith s "-" || pyStartsWith s "+" then
        ((⟨s.data.take 1⟩ : String), (⟨s.data.drop 1⟩ : String))
      else ("", s)
    sign ++ ⟨List.replicate (width - s.length) '0'⟩ ++ body

/-- Decimal digit-string value: `some` of the value when the list is a
nonempty run of ASCII digits, `none` otherwise. -/
def charsToNat? (l : List Char) : Option Nat :=
  if l = [] then none
  else if l.all fun c => c.isDigit then
    some (l.foldl (fun acc c => acc * 10 + (c.toNat - '0'.toNat)) 0)
  else none

/-- Python `int(s)` for the decimal strings the protocol produces
(optional leading minus, then digits); anything else raises ValueError. -/
def pyInt (s : String) : Except PyErr Int :=
  match s.data with
  | '-' :: rest =>
      match charsToNat? rest with
      | some n => .ok (-(n : Int))
      | none => .error .valueError
  | l =>
      match charsToNat? l with
      | some n => .ok (n : Int)
      | none => .error .valueError

/-- Message of the field-count `LightingException` raised by `__decode__`
(the f-string at lighting.py line 35). -/
def expect3Msg (n : Nat) : String :=
  "Expect 3 fields separated by :, got " ++ toString n

/-- Message of the marker `LightingException` (line 38). -/
def badMarkerMsg (field0 : String) : String :=
  "Expect response to start with ##, got " ++ field0

/-- Message of the command-mismatch `LightingException` (line 45). -/
def wrongCmdMsg (cmd field1 : String) : String :=
  "Incorrect command. Expect " ++ cmd ++ ", got " ++ field1

/-- lighting.py lines 14-55, `__decode__(msg, cmd)`: split the line on ":",
require exactly 3 fields, require the first to start with "##", take the
address as the rest of field 0, require field 1 to equal `cmd`, and rstrip
the data field.  The signature has only the two parameters `msg` and `cmd`;
line 50 then reads a name `raw` that is bound nowhere (there is neither a
`raw` parameter nor a global), so every execution that passes the three
structural checks raises `NameError` before the `return` statement. -/
def __decode__ (msg : String) (cmd : String) :
    Except PyErr (String × Option String × String) :=
  let fields := pySplit msg ':'
  if fields.length ≠ 3 then
    .error (.lightingException (expect3Msg fields.length))
  else
    let f0 := fields.getD 0 ""
    let f1 := fields.getD 1 ""
    let f2 := fields.getD 2 ""
    if ¬ pyStartsWith f0 "##" then
      .error (.lightingException (badMarkerMsg f0))
    else if f1 ≠ cmd then
      .error (.lightingException (wrongCmdMsg cmd f1))
    else
      let _dataRaw := pyRstrip f2
      -- line 50: `if not raw:` — `raw` is an unbound name here
      .error .nameError

/-- lighting.py lines 58-71, `__encode__(addr, cmd, data)` for absent or
textual data: "@@" ++ addr ++ ":" ++ cmd, then ":" ++ data when data is a
string, then "\n".  (The bytes overload, used only by the binary dimming
commands, concatenates raw bytes after the same colon prefix; no claim
exercises it.) -/
def __encode__ (addr : String) (cmd : String) (data : Option String := none) :
    String :=
  let msg := "@@" ++ addr ++ ":" ++ cmd
  match data with
  | none => msg ++ "\n"
  | some d => msg ++ ":" ++ d ++ "\n"

/-- The fixed busy-marker set of `decode` (lighting.py lines 93-95). -/
def busyMarkers : List String := ["WHUSEING", "WHBUSY", "TOPOBUSY", "STAGROUPBUSY"]

/-- A line is busy when it starts with one of the four busy markers. -/
def isBusyLine (res : String) : Bool :=
  busyMarkers.any fun b => pyStartsWith res b

/-- lighting.py lines 91-104, `decode(res, cmd, raw=False)`: lines starting
with a busy marker raise `HTTPException(503, "Transmitter busy")`.  Every
other line reaches the call `__decode__(res, cmd, raw)` — three arguments
passed to the two-parameter `__decode__`, which Python rejects with
`TypeError` at the call site, before the callee body runs.  The surrounding
`try` only catches `LightingException`, so the `TypeError` propagates and
`decode` never returns an `(addr, data)` pair.  (Had the call succeeded,
the two-name unpacking of the three-element result would raise
`ValueError` as well.) -/
def decode (res : String) (cmd : String) (raw : Bool := false) :
    Except PyErr (String × Option String) :=
  if isBusyLine res then
    .error (.httpException 503 "Transmitter busy")
  else
    .error .typeError

/-- Shared helper: `decode` always raises, with exactly two possible
outcomes. -/
theorem decode_always_error (res cmd : String) (raw : Bool) :
    decode res cmd raw = .error (.httpException 503 "Transmitter busy") ∨
      decode res cmd raw = .error .typeError := by
  unfold decode
  by_cases h : isBusyLine res
  · exact Or.inl (by simp [h])
  · exact Or.inr (by simp [h])

/-- Shared helper: `decode` never succeeds. -/
theorem decode_ne_ok (res cmd : String) (raw : Bool)
    (v : String × Option String) : decode res cmd raw ≠ .ok v := by
  rcases decode_always_error res cmd raw with h | h <;> simp [h]

/-! ## Transport model

A conversation is driven by a response script: the list of lines the
serial device produces, in order.  `lora.readline()` pops the next line,
or returns the empty string once the script is exhausted (read timeout);
an explicit empty entry in the script also stands for a timeout.  The
`receive` helper (lighting.py lines 83-88) raises
`HTTPException(500, "LoRa response timeout")` on an empty read. -/

/-- Detail string of the `receive` timeout error (line 87). -/
def timeoutDetail : String := "LoRa response timeout"

/-- `receive(lora)`: read one line; empty read raises the timeout
`HTTPException`.  Returns the outcome and the remaining script. -/
def pyReceive (script : List String) : Except PyErr String × List String :=
  match script with
  | [] => (.error (.httpException 500 timeoutDetail), [])
  | l :: rest =>
      if l.length = 0 then (.error (.httpException 500 timeoutDetail), rest)
      else (.ok l, rest)

/-! ## Control mode (lighting.py lines 190-259) -/

/-- The `ControlMode` pydantic model: five independent booleans. -/
structure ControlMode where
  analog : Bool
  button : Bool
  modbus : Bool
  bacnet : Bool
  debug : Bool
  deriving Repr, DecidableEq

/-- Data field built by `set_control_mode` (lines 239-246): five '0'/'1'
characters joined by single spaces.  Index 1 (the button flag) is assigned
the literal "1" — the source comment reads "button mode is always enabled"
— so `control_mode.button` is never consulted. -/
def buildControlModeData (m : ControlMode) : String :=
  " ".intercalate
    [ if m.analog then "1" else "0",
      "1",
      if m.modbus then "1" else "0",
      if m.bacnet then "1" else "0",
      if m.debug then "1" else "0" ]

/-- Flag extraction performed by `get_control_mode` (lines 210-214): the
characters at offsets 0, 2, 4, 6, 8 of the decoded data, each compared to
"1".  Indexing past the end of the string raises `IndexError`. -/
def parseControlMode (data : String) : Except PyErr ControlMode :=
  match data.data[0]?, data.data[2]?, data.data[4]?, data.data[6]?, data.data[8]? with
  | some a, some b, some m, some bn, some d =>
      .ok ⟨a = '1', b = '1', m = '1', bn = '1', d = '1'⟩
  | _, _, _, _, _ => .error .indexError

/-- `set_control_mode` (lines 221-259) over a response script: build the
data field, send the SETTYPE frame, read one reply, decode it against
SETTYPE, and require the echoed data to equal the sent data.  Returns the
frames written and the outcome. -/
def set_control_mode (ccoUid : String) (m : ControlMode) (script : List String) :
    List String × Except PyErr Unit :=
  let data := buildControlModeData m
  let sent := [__encode__ ccoUid "SETTYPE" (some data)]
  match pyReceive script with
  | (.error e, _) => (sent, .error e)
  | (.ok res, _) =>
      match decode res "SETTYPE" with
      | .error e => (sent, .error e)
      | .ok (_, resData) =>
          if resData ≠ some data then
            (sent, .error (.httpException 500 "Dimming mode response does not match"))
          else
            (sent, .ok ())

/-- `get_control_mode` (lines 190-218) over a response script: send
GETTYPE, read one reply, decode against GETTYPE, and extract the five
flags from offsets 0, 2, 4, 6, 8 of the data text. -/
def get_control_mode (ccoUid : String) (script : List String) :
    List String × Except PyErr ControlMode :=
  let sent := [__encode__ ccoUid "GETTYPE"]
  match pyReceive script with
  | (.error e, _) => (sent, .error e)
  | (.ok res, _) =>
      match decode res "GETTYPE" with
      | .error e => (sent, .error e)
      | .ok (_, data) =>
          match data with
          | none => (sent, .error .typeError)
          | some d => (sent, parseControlMode d)

/-! ## Group assignment (lighting.py lines 443-539) -/

/-- `set_sta_group` (lines 443-491) over a response script.  The handler
performs no range check on `group` itself: its route metadata
`Query(title=..., min=1, max=8)` uses the kwarg names `min`/`max`, which
FastAPI/pydantic do not recognise as validation constraints (the enforced
names are `ge`/`le`), so any integer reaches this body.  The body builds
the data field `sta_uid + str(group).zfill(12) + "01"`, writes the
SET_DEVICE_GROUP frame, then reads and decodes the two-phase reply. -/
def set_sta_group (ccoUid staUid : String) (group : Int) (script : List String) :
    List String × Except PyErr Unit :=
  let data := staUid ++ pyZfill 12 (toString group) ++ "01"
  let sent := [__encode__ ccoUid "SET_DEVICE_GROUP" (some data)]
  match pyReceive script with
  | (.error e, _) => (sent, .error e)
  | (.ok res, rest) =>
      match decode res "GROUPS" with
      | .error e => (sent, .error e)
      | .ok (_, d1) =>
          if d1 ≠ some staUid then
            (sent, .error (.httpException 500 "STA UID response does not match"))
          else
            match pyReceive rest with
            | (.error e, _) => (sent, .error e)
            | (.ok res2, _) =>
                match decode res2 "SET_DEVICE_GROUP" with
                | .error e => (sent, .error e)
                | .ok (_, d2) =>
                    match d2 with
                    | none => (sent, .error .assertionError)
                    | some d2s =>
                        if ¬ pyStartsWith d2s staUid then
                          (sent, .error (.httpException 500 "STA UID response does not match"))
                        else
                          match pyInt ⟨d2s.data.drop staUid.length⟩ with
                          | .error e => (sent, .error e)
                          | .ok groupRes =>
                              if group ≠ groupRes then
                                (sent, .error (.httpException 500 "STA group ID does not match"))
                              else (sent, .ok ())

/-- Result value of `get_all_sta_groups`: the no-groups fallback returns
the dict `{"sta_uids": "", "group_ids": ""}` (two empty strings), while
normal termination would return the two accumulated lists. -/
inductive GroupsOut where
  | emptyStrings
  | lists (staUids : List String) (groupIds : List Int)
  deriving Repr, DecidableEq

/-- One pass of the `get_all_sta_groups` read loop (lines 513-537),
threading the script.  The loop header is
`while (res := lora.readline()) != ""` — `res` is `bytes` and `""` is
`str`, values of different types that Python never compares equal, so the
condition is always true and the body also runs on an empty (timed-out)
read.  The first decode of each pass is wrapped in
`try ... except HTTPException`, which returns the empty-strings dict; any
other exception (in particular the `TypeError` from `decode`) propagates. -/
def staGroupsLoop (script : List String) (staUids : List String)
    (groupIds : List Int) : Except PyErr GroupsOut :=
  match script with
  | [] =>
      -- readline() returns b""; the bytes-vs-str loop condition is still
      -- true, so the body runs and decodes the empty line
      (match decode "" "GROUPS" with
       | .error (.httpException s d) => .ok .emptyStrings
       | .error e => .error e
       | .ok _ =>
           -- unreachable: decode never succeeds; the body would next call
           -- receive on the exhausted script and raise the timeout error
           .error (.httpException 500 timeoutDetail))
  | res :: rest =>
      match decode res "GROUPS" with
      | .error (.httpException s d) => .ok .emptyStrings
      | .error e => .error e
      | .ok (_, data) =>
          match data with
          | none => .error .assertionError
          | some d =>
              let staUids := staUids ++ [d]
              match rest with
              | [] => .error (.httpException 500 timeoutDetail)
              | r :: rest' =>
                  if r.length = 0 then .error (.httpException 500 timeoutDetail)
                  else
                    match decode r "SET_DEVICE_GROUP" with
                    | .error e => .error e
                    | .ok (_, data2) =>
                        match data2 with
                        | none => .error .assertionError
                        | some d2 =>
                            if ¬ pyStartsWith d2 d then
                              .error (.httpException 500 "STA_UID response does not match")
                            else
                              match pyInt ⟨d2.data.drop d.length⟩ with
                              | .error e => .error e
                              | .ok g => staGroupsLoop rest' staUids (groupIds ++ [g])

/-- `get_all_sta_groups` (lines 494-539) over a response script: send
GETSTAGROUPS, then run the read loop. -/
def get_all_sta_groups (ccoUid : String) (script : List String) :
    List String × Except PyErr GroupsOut :=
  ([__encode__ ccoUid "GETSTAGROUPS"], staGroupsLoop script [] [])

/-! ## IP provisioning (lighting.py lines 923-995) -/

/-- IPv4 address as its four decimal octets; `str(IPv4Address)` renders
them dot-separated. -/
structure IPv4 where
  o0 : Nat
  o1 : Nat
  o2 : Nat
  o3 : Nat
  deriving Repr, DecidableEq

/-- Dotted-decimal rendering of an address, as `str(ip_config.address)`
produces. -/
def ipv4Str (a : IPv4) : String :=
  toString a.o0 ++ "." ++ toString a.o1 ++ "." ++ toString a.o2 ++ "." ++ toString a.o3

/-- The `IpConfig` pydantic model. -/
structure IpConfig where
  dynamic : Bool
  address : IPv4
  netmask : IPv4
  gateway : IPv4
  deriving Repr, DecidableEq

/-- `ip_address_sum` (lines 959-960): split the dotted rendering on "."
and parse and sum the decimal fields (`int()` never fails on them). -/
def ip_address_sum (a : IPv4) : Nat :=
  ((pySplit (ipv4Str a) '.').map fun s => (charsToNat? s.data).getD 0).sum

/-- The transmitted checksum for a static configuration (lines 962-967):
octet sums of address, netmask and gateway, plus 1. -/
def ip_checksum (cfg : IpConfig) : Nat :=
  ip_address_sum cfg.address + ip_address_sum cfg.netmask + ip_address_sum cfg.gateway + 1

/-- Data field of the static branch (lines 947-969):
`address netmask gateway 1 <checksum>`. -/
def staticIpData (cfg : IpConfig) : String :=
  " ".intercalate [ipv4Str cfg.address, ipv4Str cfg.netmask, ipv4Str cfg.gateway]
    ++ " 1 " ++ toString (ip_checksum cfg)

/-- Outcome of the dynamic branch after its single read (lines 973-981):
decode against SetDeviceIP and require the text "OK 0". -/
def dynamicIpOutcome (res : String) : Except PyErr Unit :=
  match decode res "SetDeviceIP" with
  | .error e => .error e
  | .ok (_, rx) =>
      if rx ≠ some "OK 0" then
        .error (.httpException 500 "Error setting dynamic IP address")
      else .ok ()

/-- Outcome of the static branch after its fourth read (lines 983-995):
decode against SetDeviceIP and require the text "OK 1". -/
def staticIpOutcome (res : String) : Except PyErr Unit :=
  match decode res "SetDeviceIP" with
  | .error e => .error e
  | .ok (_, rx) =>
      if rx ≠ some "OK 1" then
        .error (.httpException 500 "Error setting static IP address")
      else .ok ()

/-- `set_ip_address` (lines 923-995) over a response script.  Returns the
frames written, the number of lines successfully read, and the outcome.
The dynamic branch sends the all-zeros data field then reads one line; the
static branch sends `address netmask gateway 1 <checksum>` then reads four
lines, discarding the first three. -/
def set_ip_address (ccoUid : String) (cfg : IpConfig) (script : List String) :
    List String × Nat × Except PyErr Unit :=
  let data := if cfg.dynamic then "0.0.0.0 0.0.0.0 0.0.0.0 0 0" else staticIpData cfg
  let sent := [__encode__ ccoUid "SetDeviceIP" (some data)]
  if cfg.dynamic then
    match pyReceive script with
    | (.error e, _) => (sent, 0, .error e)
    | (.ok res, _) => (sent, 1, dynamicIpOutcome res)
  else
    match pyReceive script with
    | (.error e, _) => (sent, 0, .error e)
    | (.ok _, s1) =>
        match pyReceive s1 with
        | (.error e, _) => (sent, 1, .error e)
        | (.ok _, s2) =>
            match pyReceive s2 with
            | (.error e, _) => (sent, 2, .error e)
            | (.ok _, s3) =>
                match pyReceive s3 with
                | (.error e, _) => (sent, 3, .error e)
                | (.ok res, _) => (sent, 4, staticIpOutcome res)

/-! ## Whitelist write (lighting.py lines 1028-1147) -/

/-- `clear_whitelist` (lines 1028-1047) over a script: send WHCLR and read
one reply (which carries no data field and is not decoded).  Returns the
frames written, the outcome, and the remaining script. -/
def clear_whitelist (ccoUid : String) (script : List String) :
    List String × Except PyErr Unit × List String :=
  let sent := [__encode__ ccoUid "WHCLR"]
  match pyReceive script with
  | (.error e, rest) => (sent, .error e, rest)
  | (.ok _, rest) => (sent, .ok (), rest)

/-- The WHMLIST paging loop of `set_whitelist` (lines 1112-1144).  Each
pass sends a page whose header is `index length total` with `length`
always the literal 4 and `total = len(sta_list)`; the page carries
`sta_list[index:index+4]`, or the whole remainder `sta_list[index:]` on
the final pass (entered when `index + 4 > total`).  The echoed reply must
be a prefix of the sent data; on mismatch a WHEND is sent and the call
fails; on match the index advances by 4 until the final pass.  Returns the
frames written by the loop and its outcome. -/
def whMlistLoop (ccoUid : String) (staList : List String) (index : Nat)
    (script : List String) : List String × Except PyErr Unit :=
  let length := 4
  let total := staList.length
  let stopFlag := index + 4 > total
  let page := if stopFlag then staList.drop index else (staList.drop index).take 4
  let fields := [toString index, toString length, toString total] ++ page
  let data := " ".intercalate fields
  let frame := __encode__ ccoUid "WHMLIST" (some data)
  match pyReceive script with
  | (.error e, _) => ([frame], .error e)
  | (.ok res, rest) =>
      match decode res "WHMLIST" with
      | .error e => ([frame], .error e)
      | .ok (_, resData) =>
          match resData with
          | none => ([frame], .error .assertionError)
          | some rd =>
              if pyStartsWith data rd then
                -- `if stop_flag: break`; stop_flag was set exactly when
                -- index + 4 > total at the top of this pass
                if hstop : index + 4 > staList.length then ([frame], .ok ())
                else
                  match whMlistLoop ccoUid staList (index + 4) rest with
                  | (fs, out) => (frame :: fs, out)
              else
                ([frame, __encode__ ccoUid "WHEND"],
                  .error (.httpException 500 "Unknown failure in setting whitelist"))
termination_by staList.length + 4 - index
decreasing_by
  omega

/-- `set_whitelist` (lines 1090-1147) over a response script: clear the
existing list, send WHSTART and decode its ack, run the WHMLIST paging
loop, and send a final WHEND on normal loop exit (an exception raised
inside the loop propagates without reaching that final send). -/
def set_whitelist (ccoUid : String) (staList : List String) (script : List String) :
    List String × Except PyErr Unit :=
  match clear_whitelist ccoUid script with
  | (sentClr, .error e, _) => (sentClr, .error e)
  | (sentClr, .ok (), rest) =>
      let sent := sentClr ++ [__encode__ ccoUid "WHSTART"]
      match pyReceive rest with
      | (.error e, _) => (sent, .error e)
      | (.ok res, rest2) =>
          match decode res "WHSTART" with
          | .error e => (sent, .error e)
          | .ok _ =>
              match whMlistLoop ccoUid staList 0 rest2 with
              | (fs, .error e) => (sent ++ fs, .error e)
              | (fs, .ok ()) => (sent ++ fs ++ [__encode__ ccoUid "WHEND"], .ok ())

/-! ## Discovery streaming loop (lighting.py lines 1195-1208) -/

/-- What the peer side of the websocket produced during one poll:
`asyncio.wait_for(websocket.receive_text(), timeout=0.1)` either times
out, yields a text, or raises because the peer disconnected. -/
inductive WsEvent where
  | timeout
  | text (s : String)
  | disconnect
  deriving Repr, DecidableEq

/-- Result of one pass of the `streaming()` loop body: the buffered
device lines forwarded to the peer (the source sends `str(res)`, the
textual rendering of the drained line list; we record the list itself),
the frames written to the device, and whether the loop proceeds to the
next pass (`false` only when the peer event raised, i.e. disconnect). -/
structure StreamStep where
  forwarded : Option (List String)
  toDevice : List String
  continues : Bool
  deriving Repr, DecidableEq

/-- One pass of the `streaming()` loop (lines 1196-1208): drain and
forward any buffered inbound lines, then poll the websocket with a 0.1 s
timeout; a `TimeoutError` is swallowed, the literal text "STOP" triggers
one WHITESTOP command, any other text does nothing, and a peer disconnect
raises out of the loop (cancelling the task group).  No branch breaks the
loop. -/
def streamingStep (ccoUid : String) (buffered : List String) (ev : WsEvent) :
    StreamStep :=
  let fwd := if buffered.isEmpty then none else some buffered
  match ev with
  | .timeout => ⟨fwd, [], true⟩
  | .text s =>
      if s = "STOP" then ⟨fwd, [__encode__ ccoUid "WHITESTOP"], true⟩
      else ⟨fwd, [], true⟩
  | .disconnect => ⟨fwd, [], false⟩

/-! ## Auxiliary definitions for the claims -/

/-- Recogniser for the field-count ("malformed frame") `LightingException`:
a lighting error whose message opens with the 15 characters
"Expect 3 fields" (the other two `LightingException` messages and the
runtime errors never match this). -/
def isMalformedResult {α : Type} : Except PyErr α → Bool
  | .error (.lightingException m) => m.data.take 15 == "Expect 3 fields".data
  | _ => false

/-- Field count as the claim words it: the colon-split fields "after
removing an optional empty trailing fragment".  The source performs no
such removal; this definition follows the claim's words for comparison. -/
def specFieldCount (line : String) : Nat :=
  let fs := pySplit line ':'
  let fs' := if fs.getLast? = some "" then fs.dropLast else fs
  fs'.length

/-- The IP configuration of the spec's checksum example. -/
def exampleIpConfig : IpConfig :=
  ⟨false, ⟨192, 0, 0, 128⟩, ⟨255, 255, 255, 128⟩, ⟨192, 168, 0, 1⟩⟩

/-- Whether a call completed without raising. -/
def isOkResult {α : Type} : Except PyErr α → Bool
  | .ok _ => true
  | .error _ => false

/-! ## Helper lemmas -/

/-- A nonempty string has nonzero length. -/
theorem length_ne_zero_of_ne_empty {s : String} (h : s ≠ "") : s.length ≠ 0 := by
  intro h0
  apply h
  cases s with
  | mk l =>
      cases l with
      | nil => rfl
      | cons c cs => simp [String.length] at h0

/-- The bad-marker message never matches the malformed-frame recogniser. -/
theorem isMalformedResult_badMarker (f0 : String) :
    isMalformedResult (α := String × Option String × String)
      (.error (.lightingException (badMarkerMsg f0))) = false := by
  simp only [isMalformedResult, badMarkerMsg, String.data_append]
  rw [List.take_append_of_le_length (by decide)]
  decide

/-- The command-mismatch message never matches the malformed-frame
recogniser. -/
theorem isMalformedResult_wrongCmd (cmd f1 : String) :
    isMalformedResult (α := String × Option String × String)
      (.error (.lightingException (wrongCmdMsg cmd f1))) = false := by
  simp only [isMalformedResult, wrongCmdMsg, String.data_append, List.append_assoc]
  rw [List.take_append_of_le_length (by decide)]
  decide

/-- The field-count message always matches the malformed-frame
recogniser. -/
theorem isMalformedResult_expect3 (n : Nat) :
    isMalformedResult (α := String × Option String × String)
      (.error (.lightingException (expect3Msg n))) = true := by
  simp only [isMalformedResult, expect3Msg, String.data_append]
  rw [List.take_append_of_le_length (by decide)]
  decide

/-- `set_control_mode` writes exactly one frame, the SETTYPE command with
the built data field, in every execution path. -/
theorem set_control_mode_sent (cco : String) (m : ControlMode) (script : List String) :
    (set_control_mode cco m script).1 =
      [__encode__ cco "SETTYPE" (some (buildControlModeData m))] := by
  unfold set_control_mode
  rcases hrecv : pyReceive script with ⟨r, rest⟩
  rcases r with e | res
  · simp [hrecv]
  · rcases decode_always_error res "SETTYPE" false with hd | hd <;> simp [hrecv, hd]

/-- `set_sta_group` writes exactly one frame, the SET_DEVICE_GROUP command
with the zero-padded group, in every execution path, for every group
value. -/
theorem set_sta_group_sent (cco sta : String) (group : Int) (script : List String) :
    (set_sta_group cco sta group script).1 =
      [__encode__ cco "SET_DEVICE_GROUP"
        (some (sta ++ pyZfill 12 (toString group) ++ "01"))] := by
  unfold set_sta_group
  rcases hrecv : pyReceive script with ⟨r, rest⟩
  rcases r with e | res
  · simp [hrecv]
  · rcases decode_always_error res "GROUPS" false with hd | hd <;> simp [hrecv, hd]

/-- `set_whitelist` always fails, and the only frames it ever writes are
the WHCLR and WHSTART commands: the WHSTART acknowledgement decode raises
before the first WHMLIST page could be sent. -/
theorem set_whitelist_shape (cco : String) (staList : List String)
    (script : List String) :
    isOkResult (set_whitelist cco staList script).2 = false ∧
    ((set_whitelist cco staList script).1.all fun f =>
      f == __encode__ cco "WHCLR" || f == __encode__ cco "WHSTART") = true := by
  unfold set_whitelist clear_whitelist
  rcases hr1 : pyReceive script with ⟨r1, rest⟩
  rcases r1 with e | res1
  · simp [hr1, isOkResult]
  · rcases hr2 : pyReceive rest with ⟨r2, rest2⟩
    rcases r2 with e | res2
    · simp [hr1, hr2, isOkResult]
    · rcases decode_always_error res2 "WHSTART" false with hd | hd <;>
        simp [hr1, hr2, hd, isOkResult]

/-! ## Claim theorems -/

/-- C1: the claim states that `decode(__encode__(addr, cmd, data))` checked
against the same command succeeds and recovers the fields.  On the code it
cannot: `decode` passes three arguments to the two-parameter `__decode__`,
raising `TypeError`; and `__decode__` itself rejects the encoded frame
because `__encode__` emits the outbound marker "@@" while `__decode__`
requires the inbound marker "##" (and would raise `NameError` on the
unbound name `raw` even on a "##" line).  Evaluated at
addr = "ABCDEF01", cmd = "TEST", data = "hello". -/
theorem roundtrip_decode_of_encode_raises :
    decode (__encode__ "ABCDEF01" "TEST" (some "hello")) "TEST" = .error .typeError ∧
    __decode__ (__encode__ "ABCDEF01" "TEST" (some "hello")) "TEST" =
      .error (.lightingException (badMarkerMsg "@@ABCDEF01")) :=
  ⟨rfl, rfl⟩

/-- C2: for every non-busy response line, `decode` raises (the `TypeError`
from calling the two-parameter `__decode__` with three arguments) and
never returns an (address, data) pair; no caller ever observes a
successfully decoded frame. -/
theorem decode_never_returns_frame (res cmd : String) (raw : Bool)
    (h : isBusyLine res = false) :
    decode res cmd raw = .error .typeError ∧
      ∀ v, decode res cmd raw ≠ .ok v :=
  ⟨by simp [decode, h], decode_ne_ok res cmd raw⟩

/-- Witness for C2 at a well-formed response line. -/
theorem decode_never_returns_frame_witness :
    decode "##046DD5BC:CCO_UID:046DD5BC\r\r\n" "CCO_UID" false = .error .typeError :=
  (decode_never_returns_frame "##046DD5BC:CCO_UID:046DD5BC\r\r\n" "CCO_UID" false rfl).1

/-- C3: the claim states the whitelist write emits `ceil(N/4)` WHMLIST
pages with `{index, min(4, N - index), total}` headers followed by one
WHEND.  On the code the sequence never reaches the paging loop: after the
WHCLR and WHSTART frames, decoding the WHSTART acknowledgement raises
`TypeError`, so no WHMLIST page and no WHEND are ever written and the call
always fails.  Evaluated at sta_list = ["046DD5BC1234"] with a device that
answers both commands. -/
theorem whitelist_write_never_pages :
    set_whitelist "AAAAAAAA" ["046DD5BC1234"] ["##a\n", "##b\n"] =
      ([__encode__ "AAAAAAAA" "WHCLR", __encode__ "AAAAAAAA" "WHSTART"],
        .error .typeError) ∧
    ∀ (cco : String) (staList script : List String),
      isOkResult (set_whitelist cco staList script).2 = false ∧
      ((set_whitelist cco staList script).1.all fun f =>
        f == __encode__ cco "WHCLR" || f == __encode__ cco "WHSTART") = true :=
  ⟨rfl, set_whitelist_shape⟩

/-- C4: the claim states that an empty read ends the loop normally with
the accumulated lists, and that a first-frame decode failure returns empty
lists rather than an error.  On the code, an immediate timeout (empty
script) still runs the loop body — the condition compares bytes to str and
is always true — and the decode raises `TypeError`, which the
`except HTTPException` handler does not catch, so the call fails; only a
busy line takes the fallback, which returns empty strings, not lists. -/
theorem get_all_groups_timeout_bug :
    get_all_sta_groups "AAAAAAAA" [] =
      ([__encode__ "AAAAAAAA" "GETSTAGROUPS"], .error .typeError) ∧
    get_all_sta_groups "AAAAAAAA" ["WHBUSY\n"] =
      ([__encode__ "AAAAAAAA" "GETSTAGROUPS"], .ok .emptyStrings) :=
  ⟨rfl, rfl⟩

/-- C5 counterexample: at address 192.0.0.128, netmask 255.255.255.128,
gateway 192.168.0.1 the transmitted checksum is 1575, not the 1475 the
claim states: (192+0+0+128) + (255+255+255+128) + (192+168+0+1) + 1 =
320 + 893 + 361 + 1 = 1575. -/
theorem ip_checksum_example_is_1575 :
    ip_checksum exampleIpConfig = 1575 ∧ (1575 : Nat) ≠ 1475 ∧
    staticIpData exampleIpConfig =
      "192.0.0.128 255.255.255.128 192.168.0.1 1 1575" :=
  ⟨by decide, by decide, rfl⟩

/-- C5 (amended): the transmitted checksum is the octet sums of address,
netmask and gateway plus 1 (1575 at the example); the static branch writes
one frame whose data is `address netmask gateway 1 <checksum>`, then
performs exactly four reads, ignoring the first three lines entirely — the
outcome depends only on the fourth line, which is passed to `decode`
against SetDeviceIP with expected text "OK 1"; the dynamic branch writes
the all-zeros data and performs exactly one read, expecting "OK 0". -/
theorem set_ip_address_read_discipline :
    (∀ (cco : String) (cfg : IpConfig) (l1 l2 l3 l4 : String) (rest : List String),
        cfg.dynamic = false → l1 ≠ "" → l2 ≠ "" → l3 ≠ "" → l4 ≠ "" →
        set_ip_address cco cfg (l1 :: l2 :: l3 :: l4 :: rest) =
          ([__encode__ cco "SetDeviceIP" (some (staticIpData cfg))], 4,
            staticIpOutcome l4)) ∧
    (∀ (cco : String) (cfg : IpConfig) (m1 : String) (rest : List String),
        cfg.dynamic = true → m1 ≠ "" →
        set_ip_address cco cfg (m1 :: rest) =
          ([__encode__ cco "SetDeviceIP" (some "0.0.0.0 0.0.0.0 0.0.0.0 0 0")], 1,
            dynamicIpOutcome m1)) ∧
    (∀ cfg : IpConfig, ∃ fieldsPart : String,
        staticIpData cfg = fieldsPart ++ " 1 " ++ toString (ip_checksum cfg)) ∧
    ip_checksum exampleIpConfig = 1575 := by
  refine ⟨?_, ?_, fun cfg => ⟨_, rfl⟩, by decide⟩
  · intro cco cfg l1 l2 l3 l4 rest hdyn h1 h2 h3 h4
    unfold set_ip_address
    simp [hdyn, pyReceive, length_ne_zero_of_ne_empty h1,
      length_ne_zero_of_ne_empty h2, length_ne_zero_of_ne_empty h3,
      length_ne_zero_of_ne_empty h4]
  · intro cco cfg m1 rest hdyn h1
    unfold set_ip_address
    simp [hdyn, pyReceive, length_ne_zero_of_ne_empty h1]

/-- Witness for C5's amended theorem at the example configuration. -/
theorem set_ip_address_read_discipline_witness :
    set_ip_address "AAAAAAAA" exampleIpConfig ["##a\n", "##b\n", "##c\n", "##d\n"] =
      ([__encode__ "AAAAAAAA" "SetDeviceIP" (some (staticIpData exampleIpConfig))], 4,
        staticIpOutcome "##d\n") :=
  set_ip_address_read_discipline.1 "AAAAAAAA" exampleIpConfig
    "##a\n" "##b\n" "##c\n" "##d\n" [] rfl (by decide) (by decide) (by decide)
    (by decide)

/-- C6: every line starting with one of the four busy markers decodes to
the device-busy error (HTTP 503, "Transmitter busy") regardless of its
suffix; the busy test runs before any structural check. -/
theorem busy_marker_decodes_busy (res cmd : String) (raw : Bool)
    (h : isBusyLine res = true) :
    decode res cmd raw = .error (.httpException 503 "Transmitter busy") := by
  simp [decode, h]

/-- Witness for C6: a bare marker (which would fail the 3-field check) and
a marker with an arbitrary multi-colon suffix both yield busy. -/
theorem busy_marker_decodes_busy_witness :
    decode "TOPOBUSY" "GETTYPE" false =
      .error (.httpException 503 "Transmitter busy") ∧
    decode "WHBUSY:extra:fields:here\n" "WHSGET" false =
      .error (.httpException 503 "Transmitter busy") :=
  ⟨busy_marker_decodes_busy "TOPOBUSY" "GETTYPE" false rfl,
   busy_marker_decodes_busy "WHBUSY:extra:fields:here\n" "WHSGET" false rfl⟩

/-- C7 counterexample: on the line "##ABCDEF01:TEST:" the claim's
condition holds (after removing the empty trailing fragment only 2 fields
remain), yet `__decode__` raises `NameError`, not the malformed-frame
error — the source counts the plain colon split, in which this line has
exactly 3 fields. -/
theorem malformed_trailing_fragment_counterexample :
    specFieldCount "##ABCDEF01:TEST:" ≠ 3 ∧
    (pySplit "##ABCDEF01:TEST:" ':').length = 3 ∧
    __decode__ "##ABCDEF01:TEST:" "TEST" = .error .nameError ∧
    isMalformedResult (__decode__ "##ABCDEF01:TEST:" "TEST") = false :=
  ⟨by decide, by decide, rfl, rfl⟩

/-- C7 (amended): for every non-busy line, `__decode__` raises the
malformed-frame `LightingException` exactly when the plain colon split of
the line does not have exactly 3 fields (no trailing-fragment removal
is performed). -/
theorem malformed_iff_three_fields (line cmd : String)
    (hb : isBusyLine line = false) :
    isMalformedResult (__decode__ line cmd) = true ↔
      (pySplit line ':').length ≠ 3 := by
  unfold __decode__
  by_cases h3 : (pySplit line ':').length = 3
  · rw [if_neg (by omega)]
    simp only [h3, ne_eq, not_true_eq_false, iff_false]
    split
    · rw [isMalformedResult_badMarker]
      exact Bool.false_ne_true
    · split
      · rw [isMalformedResult_wrongCmd]
        exact Bool.false_ne_true
      · intro hmal
        simp [isMalformedResult] at hmal
  · rw [if_pos h3]
    simp only [isMalformedResult_expect3, ne_eq, h3, not_false_eq_true]

/-- Witness for C7's amended theorem: the claim's own scenario line with
2 fields fails with the malformed-frame error. -/
theorem malformed_iff_three_fields_witness :
    isMalformedResult (__decode__ "##ABCDEF01:ONLYONEFIELD" "TEST") = true :=
  (malformed_iff_three_fields "##ABCDEF01:ONLYONEFIELD" "TEST" rfl).mpr (by decide)

/-- C8 counterexample: with the button flag false (all others true) the
transmitted data is "1 1 1 1 1" — the character at offset 2 is '1', not
the '0' the claimed flag-to-character mapping requires. -/
theorem control_mode_button_counterexample :
    buildControlModeData ⟨true, false, true, true, true⟩ = "1 1 1 1 1" ∧
    (⟨true, false, true, true, true⟩ : ControlMode).button = false ∧
    (buildControlModeData ⟨true, false, true, true, true⟩).data[2]? = some '1' :=
  ⟨rfl, rfl, rfl⟩

/-- C8 (amended): `set_control_mode` transmits the space-joined 5-field
string as the SETTYPE data; analog, modbus, bacnet and debug map to
'0'/'1' at offsets 0, 4, 6, 8 with '1' iff the flag is true, while the
offset-2 button character is always '1' regardless of the flag;
`get_control_mode`'s extraction reads the flags back from offsets
0, 2, 4, 6, 8, recovering every flag except button, which always reads
back true. -/
theorem control_mode_fixed_offsets (cco : String) (m : ControlMode)
    (script : List String) :
    (set_control_mode cco m script).1 =
      [__encode__ cco "SETTYPE" (some (buildControlModeData m))] ∧
    parseControlMode (buildControlModeData m) =
      .ok ⟨m.analog, true, m.modbus, m.bacnet, m.debug⟩ ∧
    (buildControlModeData m).data[0]? = some (if m.analog then '1' else '0') ∧
    (buildControlModeData m).data[2]? = some '1' ∧
    (buildControlModeData m).data[4]? = some (if m.modbus then '1' else '0') ∧
    (buildControlModeData m).data[6]? = some (if m.bacnet then '1' else '0') ∧
    (buildControlModeData m).data[8]? = some (if m.debug then '1' else '0') := by
  refine ⟨set_control_mode_sent cco m script, ?_⟩
  obtain ⟨a, b, mo, bn, d⟩ := m
  cases a <;> cases b <;> cases mo <;> cases bn <;> cases d <;>
    exact ⟨rfl, rfl, rfl, rfl, rfl, rfl⟩

/-- C9: the claim states a group id outside [1,8] is rejected before any
I/O.  On the code it is not: the route metadata `Query(min=1, max=8)` uses
kwarg names FastAPI/pydantic do not enforce (the validation kwargs are
`ge`/`le`), and the handler body contains no range check, so for every
group value — including 0 — the SET_DEVICE_GROUP frame is written and a
read is attempted. -/
theorem group_zero_not_rejected :
    (∀ (cco sta : String) (group : Int) (script : List String),
        (set_sta_group cco sta group script).1 =
          [__encode__ cco "SET_DEVICE_GROUP"
            (some (sta ++ pyZfill 12 (toString group) ++ "01"))]) ∧
    set_sta_group "AAAAAAAA" "046DD5BC1234" 0 [] =
      ([__encode__ "AAAAAAAA" "SET_DEVICE_GROUP"
          (some "046DD5BC123400000000000001")],
        .error (.httpException 500 timeoutDetail)) := by
  refine ⟨set_sta_group_sent, ?_⟩
  rfl

/-- C10: in every pass of the discovery streaming loop, receiving the
literal text "STOP" sends exactly one WHITESTOP frame to the device and
the loop continues; no text and no timeout ends the loop — only the peer
disconnecting (which raises out of the loop) does. -/
theorem streaming_stop_sends_whitestop (cco : String) (buffered : List String) :
    streamingStep cco buffered (.text "STOP") =
      ⟨if buffered.isEmpty then none else some buffered,
        [__encode__ cco "WHITESTOP"], true⟩ ∧
    (∀ s : String, s ≠ "STOP" →
        (streamingStep cco buffered (.text s)).toDevice = [] ∧
        (streamingStep cco buffered (.text s)).continues = true) ∧
    (∀ ev : WsEvent, ev ≠ .disconnect →
        (streamingStep cco buffered ev).continues = true) := by
  refine ⟨by simp [streamingStep], ?_, ?_⟩
  · intro s hs
    simp [streamingStep, hs]
  · intro ev hev
    cases ev with
    | timeout => rfl
    | text s =>
        simp only [streamingStep]
        split <;> rfl
    | disconnect => exact absurd rfl hev

/-- Witness for C10 at a concrete session state. -/
theorem streaming_stop_sends_whitestop_witness :
    streamingStep "AAAAAAAA" [] (.text "STOP") =
      ⟨none, [__encode__ "AAAAAAAA" "WHITESTOP"], true⟩ ∧
    (streamingStep "AAAAAAAA" [] (.text "KEEPGOING")).toDevice = [] ∧
    (streamingStep "AAAAAAAA" [] .timeout).continues = true :=
  ⟨by simpa using (streaming_stop_sends_whitestop "AAAAAAAA" []).1,
   ((streaming_stop_sends_whitestop "AAAAAAAA" []).2.1 "KEEPGOING" (by decide)).1,
   (streaming_stop_sends_whitestop "AAAAAAAA" []).2.2 .timeout (by decide)⟩

end Lighting
